import Mathlib

/-!
Verification of the BetterFasterWhisper C boundary (whisper_core.h).

The repository ships the interface declaration only (whisper_core.h); the
lifecycle and marshalling logic behind it is specified in the design
document. Data types below are embedded from the header; the operations
are modelled from the spec, as marked in their doc comments. A C pointer
that may be null is embedded as `Option`; an owned `char *` string field
is `Option String`, where `none` is the null (released / never populated)
sentinel.
-/

/-- Result codes for FFI functions, from `whisper_core.h` (enum class
WhisperResultCode). -/
inductive WhisperResultCode where
  | Success
  | Error
  | ModelNotFound
  | NotInitialized
  | InvalidParameter
  | TranscriptionFailed
deriving DecidableEq, Repr

/-- The numeric value of each result code, from `whisper_core.h`. -/
def WhisperResultCode.toInt : WhisperResultCode → Int
  | .Success => 0
  | .Error => -1
  | .ModelNotFound => -2
  | .NotInitialized => -3
  | .InvalidParameter => -4
  | .TranscriptionFailed => -5

/-- Audio sample rate expected by Whisper (16kHz), from `whisper_core.h`. -/
def WHISPER_SAMPLE_RATE : Nat := 16000

/-- C-compatible configuration, from `whisper_core.h` (struct
CWhisperConfig). The two `const char *` fields are `Option String` to
model nullability. -/
structure CWhisperConfig where
  model_path : Option String
  model_size : Int
  language : Option String
  translate : Bool
  n_threads : Nat
  use_gpu : Bool
deriving DecidableEq, Repr

/-- C-compatible transcription result, from `whisper_core.h` (struct
CTranscriptionResult). Owned `char *` fields are `Option String`; `none`
models a null pointer. -/
structure CTranscriptionResult where
  text : Option String
  language : Option String
  segment_count : Int
  processing_time_ms : Nat
  audio_duration_ms : Nat
  result_code : WhisperResultCode
  error_message : Option String
deriving DecidableEq, Repr

/-- Opaque reference to a loaded external inference engine instance
(glossary: engine handle). -/
structure EngineHandle where
  id : Nat
deriving DecidableEq, Repr

/-- Modelled from the spec: collaborator (a), the model loader, whose
implementation is absent from src/ — `load(path, size, gpu) -> engine
handle | NotFound`, with `none` as the NotFound outcome. -/
structure ModelLoader where
  load : String → Int → Bool → Option EngineHandle

/-- Modelled from the spec: collaborator (b), the inference engine, whose
implementation is absent from src/ — `infer(samples, rate, language_hint,
translate, threads) -> (text, language, segments) | failure`, invoked
through the owned engine handle. Sample values are opaque to the boundary
and embedded as integers. -/
structure InferenceEngine where
  infer : EngineHandle → List Int → Nat → Option String → Bool → Nat →
    Except String (String × String × Nat)

/-- Modelled from the spec: collaborator (c), the audio decoder, whose
implementation is absent from src/ — `decode(path) -> (samples, rate) |
failure`. -/
structure AudioDecoder where
  decode : String → Except String (List Int × Nat)

/-- Modelled from the spec: the process-wide `EngineState` singleton
(implementation absent from src/) — lifecycle phase plus, when
`Initialized`, the owned engine handle and the configuration used to
construct it. -/
inductive EngineState where
  | Uninitialized
  | Initialized (handle : EngineHandle) (config : CWhisperConfig)
deriving DecidableEq, Repr

/-- Modelled from the spec: `whisper_init` (implementation absent from
src/). Validates the configuration (non-null pointer, non-null and
non-empty model path), loads the model via the model loader; load failure
returns `ModelNotFound` with the state unchanged; validation failure
returns `InvalidParameter` with the state unchanged; success transitions
to `Initialized`, overwriting any prior engine (release-then-reinitialize
policy). Returns the result code and the state after the call. -/
def whisper_init (loader : ModelLoader) (config : Option CWhisperConfig)
    (st : EngineState) : WhisperResultCode × EngineState :=
  match config with
  | none => (WhisperResultCode.InvalidParameter, st)
  | some cfg =>
    match cfg.model_path with
    | none => (WhisperResultCode.InvalidParameter, st)
    | some path =>
      if path = "" then
        (WhisperResultCode.InvalidParameter, st)
      else
        match loader.load path cfg.model_size cfg.use_gpu with
        | none => (WhisperResultCode.ModelNotFound, st)
        | some h => (WhisperResultCode.Success, EngineState.Initialized h cfg)

/-- Modelled from the spec: the conventional default model path used by
`whisper_init_default` (implementation absent from src/). -/
def defaultModelPath : String := "models/ggml-base.bin"

/-- Modelled from the spec: the default configuration synthesized by
`whisper_init_default` — auto threads, no GPU, auto language (null hint),
no translation, the conventional default model path. -/
def default_config : CWhisperConfig :=
  { model_path := some defaultModelPath
    model_size := 1
    language := none
    translate := false
    n_threads := 0
    use_gpu := false }

/-- Modelled from the spec: `whisper_init_default` (implementation absent
from src/) — identical to `whisper_init` on the synthesized default
configuration. -/
def whisper_init_default (loader : ModelLoader) (st : EngineState) :
    WhisperResultCode × EngineState :=
  whisper_init loader (some default_config) st

/-- A failure `CTranscriptionResult` as built by the result marshaller:
text and language are null (empty), the error message is populated. -/
def failureResult (code : WhisperResultCode) (msg : String) :
    CTranscriptionResult :=
  { text := none
    language := none
    segment_count := 0
    processing_time_ms := 0
    audio_duration_ms := 0
    result_code := code
    error_message := some msg }

/-- The outcome of a transcription call: the marshalled result record,
plus whether the external inference engine was invoked during the call. -/
structure TranscribeOutcome where
  result : CTranscriptionResult
  engineInvoked : Bool
deriving DecidableEq, Repr

/-- Modelled from the spec: `whisper_transcribe` / `TranscribeSamples`
(implementation absent from src/). If the engine is `Uninitialized` it
fails immediately with `NotInitialized`, touching no engine handle; a zero
sample count or a sample rate other than `WHISPER_SAMPLE_RATE` is rejected
as `InvalidParameter` before the inference engine is reached. Otherwise it
computes the audio duration as `count / sample_rate * 1000` ms and
delegates to the inference engine: inference failure yields
`TranscriptionFailed` with the engine's message, success yields a populated
record. The measured wall-clock processing time is supplied as
`elapsed_ms`. -/
def whisper_transcribe (inf : InferenceEngine) (st : EngineState)
    (samples : List Int) (sample_count : Nat) (sample_rate : Nat)
    (elapsed_ms : Nat) : TranscribeOutcome :=
  match st with
  | EngineState.Uninitialized =>
    { result := failureResult WhisperResultCode.NotInitialized
        "whisper engine is not initialized: call whisper_init first"
      engineInvoked := false }
  | EngineState.Initialized hdl cfg =>
    if sample_count = 0 then
      { result := failureResult WhisperResultCode.InvalidParameter
          "sample count must be greater than zero"
        engineInvoked := false }
    else if sample_rate ≠ WHISPER_SAMPLE_RATE then
      { result := failureResult WhisperResultCode.InvalidParameter
          "unsupported sample rate: expected 16000 Hz"
        engineInvoked := false }
    else
      match inf.infer hdl samples sample_rate cfg.language cfg.translate
          cfg.n_threads with
      | Except.error msg =>
        { result :=
            { failureResult WhisperResultCode.TranscriptionFailed msg with
                processing_time_ms := elapsed_ms
                audio_duration_ms := sample_count / sample_rate * 1000 }
          engineInvoked := true }
      | Except.ok (text, lang, segs) =>
        { result :=
            { text := some text
              language := some lang
              segment_count := (segs : Int)
              processing_time_ms := elapsed_ms
              audio_duration_ms := sample_count / sample_rate * 1000
              result_code := WhisperResultCode.Success
              error_message := none }
          engineInvoked := true }

/-- Modelled from the spec: `whisper_transcribe_file` / `TranscribeFile`
(implementation absent from src/). A null or empty path is
`InvalidParameter`; decode failure surfaces as generic `Error` with the
decoder's message embedded; on decode success it delegates to the same
path as `whisper_transcribe`. -/
def whisper_transcribe_file (dec : AudioDecoder) (inf : InferenceEngine)
    (st : EngineState) (file_path : Option String) (elapsed_ms : Nat) :
    TranscribeOutcome :=
  match file_path with
  | none =>
    { result := failureResult WhisperResultCode.InvalidParameter
        "file path must not be null"
      engineInvoked := false }
  | some p =>
    if p = "" then
      { result := failureResult WhisperResultCode.InvalidParameter
          "file path must not be empty"
        engineInvoked := false }
    else
      match dec.decode p with
      | Except.error msg =>
        { result := failureResult WhisperResultCode.Error
            ("failed to decode audio file: " ++ msg)
          engineInvoked := false }
      | Except.ok (samples, rate) =>
        whisper_transcribe inf st samples samples.length rate elapsed_ms

/-- The owned string buffers a release of this record deallocates: every
field that is currently non-null. -/
def freedStrings (r : CTranscriptionResult) : List String :=
  r.text.toList ++ r.language.toList ++ r.error_message.toList

/-- Modelled from the spec: `whisper_free_result` / `Release`
(implementation absent from src/). A null result pointer is a safe no-op.
Otherwise it deallocates every currently-owned (non-null) string field and
invalidates the fields by nulling them, so a second call finds only the
released sentinel and frees nothing. Returns the record after the call
together with the list of string buffers actually freed by the call. -/
def whisper_free_result (result : Option CTranscriptionResult) :
    Option CTranscriptionResult × List String :=
  match result with
  | none => (none, [])
  | some r =>
    (some { r with text := none, language := none, error_message := none },
      freedStrings r)

/-- Modelled from the spec: `whisper_shutdown` (implementation absent from
src/) — a no-op when `Uninitialized`, otherwise releases the engine
handle, clears the configuration and transitions to `Uninitialized`; in
both cases the state after the call is `Uninitialized`. -/
def whisper_shutdown (st : EngineState) : EngineState :=
  match st with
  | EngineState.Uninitialized => EngineState.Uninitialized
  | EngineState.Initialized _ _ => EngineState.Uninitialized

/-- Modelled from the spec: the constant library version string returned
by `whisper_version` (implementation absent from src/). -/
def whisper_version_string : String := "0.1.0"

/-- Modelled from the spec: `whisper_version` (implementation absent from
src/) — returns the library version string (a non-null `const char *`,
hence always `some`) and leaves the engine state untouched. -/
def whisper_version (st : EngineState) : Option String × EngineState :=
  (some whisper_version_string, st)

/-- Modelled from the spec: `whisper_is_initialized` (implementation
absent from src/) — a pure read of the current lifecycle phase. -/
def whisper_is_initialized : EngineState → Bool
  | EngineState.Uninitialized => false
  | EngineState.Initialized _ _ => true

/-- A zero-valued / never-populated `CTranscriptionResult`: all pointer
fields null, all numeric fields zero, result code `Success` (the zero
enum value). -/
def zeroResult : CTranscriptionResult :=
  { text := none
    language := none
    segment_count := 0
    processing_time_ms := 0
    audio_duration_ms := 0
    result_code := WhisperResultCode.Success
    error_message := none }

/-- The string-exclusivity invariant of a marshalled result: success
implies no error message; failure implies null text and language; and the
text and the error message are never both null (at least one is
populated). -/
def stringExclusive (r : CTranscriptionResult) : Prop :=
  (r.result_code = WhisperResultCode.Success → r.error_message = none)
  ∧ (r.result_code ≠ WhisperResultCode.Success →
      r.text = none ∧ r.language = none)
  ∧ (r.text ≠ none ∨ r.error_message ≠ none)

/-- A model loader on which every load attempt fails (model not found). -/
def failLoader : ModelLoader :=
  { load := fun _ _ _ => none }

/-- A model loader on which every load attempt succeeds. -/
def okLoader : ModelLoader :=
  { load := fun _ _ _ => some { id := 1 } }

/-- An inference engine that always succeeds with a fixed transcription. -/
def infOk : InferenceEngine :=
  { infer := fun _ _ _ _ _ _ => Except.ok ("hello world", "en", 2) }

/-- An audio decoder on which every decode attempt fails. -/
def decFail : AudioDecoder :=
  { decode := fun _ => Except.error "unsupported container" }

/-- Helper: the string-exclusivity invariant holds for every outcome of
`whisper_transcribe`. -/
theorem stringExclusive_whisper_transcribe (inf : InferenceEngine)
    (st : EngineState) (samples : List Int)
    (sample_count sample_rate elapsed_ms : Nat) :
    stringExclusive
      (whisper_transcribe inf st samples sample_count sample_rate
        elapsed_ms).result := by
  cases st with
  | Uninitialized =>
    simp [whisper_transcribe, stringExclusive, failureResult]
  | Initialized hdl cfg =>
    by_cases hc : sample_count = 0
    · simp [whisper_transcribe, hc, stringExclusive, failureResult]
    · by_cases hr : sample_rate = WHISPER_SAMPLE_RATE
      · subst hr
        cases hinf : inf.infer hdl samples WHISPER_SAMPLE_RATE cfg.language
            cfg.translate cfg.n_threads with
        | error msg =>
          simp [whisper_transcribe, hc, hinf, stringExclusive,
            failureResult]
        | ok t =>
          obtain ⟨text, lang, segs⟩ := t
          simp [whisper_transcribe, hc, hinf, stringExclusive]
      · simp [whisper_transcribe, hc, hr, stringExclusive, failureResult]

/-- Helper: the string-exclusivity invariant holds for every outcome of
`whisper_transcribe_file`. -/
theorem stringExclusive_whisper_transcribe_file (dec : AudioDecoder)
    (inf : InferenceEngine) (st : EngineState) (file_path : Option String)
    (elapsed_ms : Nat) :
    stringExclusive
      (whisper_transcribe_file dec inf st file_path elapsed_ms).result := by
  cases file_path with
  | none =>
    simp [whisper_transcribe_file, stringExclusive, failureResult]
  | some p =>
    by_cases hp : p = ""
    · simp [whisper_transcribe_file, hp, stringExclusive, failureResult]
    · cases hd : dec.decode p with
      | error msg =>
        simp [whisper_transcribe_file, hp, hd, stringExclusive,
          failureResult]
      | ok sr =>
        obtain ⟨samples, rate⟩ := sr
        have h := stringExclusive_whisper_transcribe inf st samples
          samples.length rate elapsed_ms
        simpa [whisper_transcribe_file, hp, hd] using h

/-- C1: for every engine state and every configuration, if `whisper_init`
or `whisper_init_default` fails (any result code other than `Success`,
e.g. `ModelNotFound` or `InvalidParameter`), the engine state after the
call equals the engine state before the call: a prior `Initialized` engine
stays intact and an `Uninitialized` engine stays `Uninitialized`, with
`whisper_is_initialized` unchanged. -/
theorem whisper_init_failure_preserves_state :
    (∀ (loader : ModelLoader) (config : Option CWhisperConfig)
        (st : EngineState),
      (whisper_init loader config st).1 ≠ WhisperResultCode.Success →
        (whisper_init loader config st).2 = st
        ∧ whisper_is_initialized (whisper_init loader config st).2
            = whisper_is_initialized st)
    ∧ (∀ (loader : ModelLoader) (st : EngineState),
      (whisper_init_default loader st).1 ≠ WhisperResultCode.Success →
        (whisper_init_default loader st).2 = st
        ∧ whisper_is_initialized (whisper_init_default loader st).2
            = whisper_is_initialized st) := by
  have main : ∀ (loader : ModelLoader) (config : Option CWhisperConfig)
      (st : EngineState),
      (whisper_init loader config st).1 ≠ WhisperResultCode.Success →
        (whisper_init loader config st).2 = st := by
    intro loader config st h
    cases config with
    | none => rfl
    | some cfg =>
      cases hp : cfg.model_path with
      | none => simp [whisper_init, hp]
      | some path =>
        by_cases he : path = ""
        · simp [whisper_init, hp, he]
        · cases hl : loader.load path cfg.model_size cfg.use_gpu with
          | none => simp [whisper_init, hp, he, hl]
          | some hdl =>
            exact absurd (by simp [whisper_init, hp, he, hl]) h
  refine ⟨fun loader config st h => ⟨main loader config st h, ?_⟩,
    fun loader st h =>
      ⟨main loader (some default_config) st h, ?_⟩⟩
  · rw [main loader config st h]
  · rw [show (whisper_init_default loader st).2
        = (whisper_init loader (some default_config) st).2 from rfl,
      main loader (some default_config) st h]

/-- C1 witness: `whisper_init_default` with a loader on which the default
model is absent returns a non-`Success` code and leaves an
`Uninitialized` engine `Uninitialized`, with `whisper_is_initialized`
still false. -/
theorem whisper_init_failure_preserves_state_witness :
    (whisper_init_default failLoader EngineState.Uninitialized).1
        ≠ WhisperResultCode.Success
    ∧ (whisper_init_default failLoader EngineState.Uninitialized).2
        = EngineState.Uninitialized
    ∧ whisper_is_initialized
        (whisper_init_default failLoader EngineState.Uninitialized).2
        = whisper_is_initialized EngineState.Uninitialized :=
  ⟨by decide,
    (whisper_init_failure_preserves_state.2 failLoader
      EngineState.Uninitialized (by decide)).1,
    (whisper_init_failure_preserves_state.2 failLoader
      EngineState.Uninitialized (by decide)).2⟩

/-- C2: for every samples buffer, sample count and sample rate, calling
`whisper_transcribe` in the `Uninitialized` state returns a result whose
`result_code` is `NotInitialized`, never invokes the inference engine, and
the whole outcome is independent of the inference engine collaborator (so
no engine handle is ever consulted). -/
theorem whisper_transcribe_uninitialized
    (inf other : InferenceEngine) (samples : List Int)
    (sample_count sample_rate elapsed_ms : Nat) :
    (whisper_transcribe inf EngineState.Uninitialized samples sample_count
        sample_rate elapsed_ms).result.result_code
      = WhisperResultCode.NotInitialized
    ∧ (whisper_transcribe inf EngineState.Uninitialized samples sample_count
        sample_rate elapsed_ms).engineInvoked = false
    ∧ whisper_transcribe inf EngineState.Uninitialized samples sample_count
        sample_rate elapsed_ms
      = whisper_transcribe other EngineState.Uninitialized samples
          sample_count sample_rate elapsed_ms :=
  ⟨rfl, rfl, rfl⟩

/-- C3: for every initialized engine, `whisper_transcribe` returns
`InvalidParameter` whenever the sample count is zero or the sample rate
differs from `WHISPER_SAMPLE_RATE` (16000 Hz), and in these cases the
inference engine is never invoked — the rate mismatch is rejected, not
resampled. -/
theorem whisper_transcribe_invalid_parameter
    (inf : InferenceEngine) (hdl : EngineHandle) (cfg : CWhisperConfig)
    (samples : List Int) (sample_count sample_rate elapsed_ms : Nat)
    (h : sample_count = 0 ∨ sample_rate ≠ WHISPER_SAMPLE_RATE) :
    (whisper_transcribe inf (EngineState.Initialized hdl cfg) samples
        sample_count sample_rate elapsed_ms).result.result_code
      = WhisperResultCode.InvalidParameter
    ∧ (whisper_transcribe inf (EngineState.Initialized hdl cfg) samples
        sample_count sample_rate elapsed_ms).engineInvoked = false := by
  by_cases hc : sample_count = 0
  · simp [whisper_transcribe, hc, failureResult]
  · rcases h with h | h
    · exact absurd h hc
    · simp [whisper_transcribe, hc, h, failureResult]

/-- C3 witness: on an initialized engine, zero samples at 16000 Hz are
rejected with `InvalidParameter` and the inference engine is not
invoked. -/
theorem whisper_transcribe_invalid_parameter_witness :
    ((0 : Nat) = 0 ∨ (16000 : Nat) ≠ WHISPER_SAMPLE_RATE)
    ∧ (whisper_transcribe infOk
        (EngineState.Initialized { id := 1 } default_config) [] 0 16000
        0).result.result_code = WhisperResultCode.InvalidParameter
    ∧ (whisper_transcribe infOk
        (EngineState.Initialized { id := 1 } default_config) [] 0 16000
        0).engineInvoked = false :=
  ⟨Or.inl rfl,
    (whisper_transcribe_invalid_parameter infOk { id := 1 } default_config
      [] 0 16000 0 (Or.inl rfl)).1,
    (whisper_transcribe_invalid_parameter infOk { id := 1 } default_config
      [] 0 16000 0 (Or.inl rfl)).2⟩

/-- C4: `whisper_free_result` is idempotent. A first call on any record
frees exactly the currently-owned (non-null) string fields and invalidates
all of them to the released sentinel (null); a second call on the record
left by the first call changes nothing and frees nothing; and a call on
the zero-valued / never-populated record changes nothing and frees
nothing. -/
theorem whisper_free_result_idempotent (r : CTranscriptionResult) :
    (whisper_free_result (some r)).2 = freedStrings r
    ∧ (whisper_free_result (some r)).1
        = some { r with text := none, language := none,
                        error_message := none }
    ∧ whisper_free_result (whisper_free_result (some r)).1
        = ((whisper_free_result (some r)).1, [])
    ∧ whisper_free_result (some zeroResult) = (some zeroResult, []) :=
  ⟨rfl, rfl, rfl, rfl⟩

/-- C5: every result returned by `whisper_transcribe` or
`whisper_transcribe_file` satisfies the string-exclusivity invariant:
success implies the error message is null, failure implies text and
language are null, and text and error message are never both null. -/
theorem transcription_result_string_exclusivity
    (inf : InferenceEngine) (dec : AudioDecoder) (st : EngineState)
    (samples : List Int) (sample_count sample_rate elapsed_ms : Nat)
    (file_path : Option String) :
    stringExclusive (whisper_transcribe inf st samples sample_count
        sample_rate elapsed_ms).result
    ∧ stringExclusive (whisper_transcribe_file dec inf st file_path
        elapsed_ms).result :=
  ⟨stringExclusive_whisper_transcribe inf st samples sample_count
      sample_rate elapsed_ms,
    stringExclusive_whisper_transcribe_file dec inf st file_path
      elapsed_ms⟩

/-- C6: whenever `whisper_transcribe` succeeds, the returned
`audio_duration_ms` equals `sample_count / sample_rate * 1000`
milliseconds, a value that does not depend on the measured processing
time. -/
theorem whisper_transcribe_audio_duration
    (inf : InferenceEngine) (st : EngineState) (samples : List Int)
    (sample_count sample_rate elapsed_ms : Nat)
    (h : (whisper_transcribe inf st samples sample_count sample_rate
        elapsed_ms).result.result_code = WhisperResultCode.Success) :
    (whisper_transcribe inf st samples sample_count sample_rate
        elapsed_ms).result.audio_duration_ms
      = sample_count / sample_rate * 1000 := by
  cases st with
  | Uninitialized => exact absurd h (by simp [whisper_transcribe,
      failureResult])
  | Initialized hdl cfg =>
    by_cases hc : sample_count = 0
    · exact absurd h (by simp [whisper_transcribe, hc, failureResult])
    · by_cases hr : sample_rate = WHISPER_SAMPLE_RATE
      · subst hr
        cases hinf : inf.infer hdl samples WHISPER_SAMPLE_RATE cfg.language
            cfg.translate cfg.n_threads with
        | error msg =>
          exact absurd h (by simp [whisper_transcribe, hc, hinf,
            failureResult])
        | ok t =>
          obtain ⟨text, lang, segs⟩ := t
          simp [whisper_transcribe, hc, hinf]
      · exact absurd h (by simp [whisper_transcribe, hc, hr,
          failureResult])

/-- C6 witness: a successful transcription of 32000 samples at 16000 Hz
reports an audio duration of exactly 2000 ms. -/
theorem whisper_transcribe_audio_duration_witness :
    (whisper_transcribe infOk
        (EngineState.Initialized { id := 1 } default_config) [] 32000 16000
        7).result.result_code = WhisperResultCode.Success
    ∧ (whisper_transcribe infOk
        (EngineState.Initialized { id := 1 } default_config) [] 32000 16000
        7).result.audio_duration_ms = 2000 :=
  ⟨rfl,
    (whisper_transcribe_audio_duration infOk
      (EngineState.Initialized { id := 1 } default_config) [] 32000 16000
      7 rfl).trans (by norm_num)⟩

/-- C5 witness: the string-exclusivity invariant at a concrete call — an
uninitialized transcription and a failing file decode both satisfy it. -/
theorem transcription_result_string_exclusivity_witness :
    stringExclusive (whisper_transcribe infOk EngineState.Uninitialized []
        0 0 0).result
    ∧ stringExclusive (whisper_transcribe_file decFail infOk
        EngineState.Uninitialized (some "a.wav") 0).result :=
  transcription_result_string_exclusivity infOk decFail
    EngineState.Uninitialized [] 0 0 0 (some "a.wav")

/-- C7: for every configuration whose model path is present, non-empty and
loadable by the model loader, `whisper_init` returns `Success` and
`whisper_is_initialized` afterwards returns true; and after any
`whisper_shutdown` call, from any state, `whisper_is_initialized` returns
false. -/
theorem whisper_init_shutdown_is_initialized
    (loader : ModelLoader) (cfg : CWhisperConfig) (st₀ st₁ : EngineState)
    (path : String) (hdl : EngineHandle)
    (hpath : cfg.model_path = some path) (hne : path ≠ "")
    (hload : loader.load path cfg.model_size cfg.use_gpu = some hdl) :
    (whisper_init loader (some cfg) st₀).1 = WhisperResultCode.Success
    ∧ whisper_is_initialized (whisper_init loader (some cfg) st₀).2 = true
    ∧ whisper_is_initialized (whisper_shutdown st₁) = false := by
  refine ⟨?_, ?_, ?_⟩
  · simp [whisper_init, hpath, hne, hload]
  · simp [whisper_init, hpath, hne, hload, whisper_is_initialized]
  · cases st₁ <;> rfl

/-- C7 witness: with a loader that finds the default model, `whisper_init`
on the default configuration succeeds from `Uninitialized` and leaves the
engine initialized; shutting down an initialized engine leaves
`whisper_is_initialized` false. -/
theorem whisper_init_shutdown_is_initialized_witness :
    default_config.model_path = some defaultModelPath
    ∧ defaultModelPath ≠ ""
    ∧ okLoader.load defaultModelPath default_config.model_size
        default_config.use_gpu = some { id := 1 }
    ∧ (whisper_init okLoader (some default_config)
        EngineState.Uninitialized).1 = WhisperResultCode.Success
    ∧ whisper_is_initialized (whisper_init okLoader (some default_config)
        EngineState.Uninitialized).2 = true
    ∧ whisper_is_initialized (whisper_shutdown
        (EngineState.Initialized { id := 1 } default_config)) = false :=
  ⟨rfl, by decide, rfl,
    (whisper_init_shutdown_is_initialized okLoader default_config
      EngineState.Uninitialized
      (EngineState.Initialized { id := 1 } default_config)
      defaultModelPath { id := 1 } rfl (by decide) rfl).1,
    (whisper_init_shutdown_is_initialized okLoader default_config
      EngineState.Uninitialized
      (EngineState.Initialized { id := 1 } default_config)
      defaultModelPath { id := 1 } rfl (by decide) rfl).2.1,
    (whisper_init_shutdown_is_initialized okLoader default_config
      EngineState.Uninitialized
      (EngineState.Initialized { id := 1 } default_config)
      defaultModelPath { id := 1 } rfl (by decide) rfl).2.2⟩

/-- C8: for every configuration with a present, non-empty, loadable model
path, the sequence init–shutdown–init starting from `Uninitialized`
returns exactly the same result-code/state pair as the first
initialization (which is `Success` with the engine initialized): no state
leaks from the first cycle into the second. -/
theorem whisper_init_shutdown_init_roundtrip
    (loader : ModelLoader) (cfg : CWhisperConfig) (path : String)
    (hdl : EngineHandle) (hpath : cfg.model_path = some path)
    (hne : path ≠ "")
    (hload : loader.load path cfg.model_size cfg.use_gpu = some hdl) :
    whisper_init loader (some cfg)
        (whisper_shutdown
          (whisper_init loader (some cfg) EngineState.Uninitialized).2)
      = whisper_init loader (some cfg) EngineState.Uninitialized
    ∧ (whisper_init loader (some cfg) EngineState.Uninitialized).1
        = WhisperResultCode.Success
    ∧ (whisper_init loader (some cfg) EngineState.Uninitialized).2
        = EngineState.Initialized hdl cfg := by
  refine ⟨?_, ?_, ?_⟩ <;>
    simp [whisper_init, whisper_shutdown, hpath, hne, hload]

/-- C8 witness: the init–shutdown–init round trip at the default
configuration with a loader that finds the model reproduces the first
initialization exactly. -/
theorem whisper_init_shutdown_init_roundtrip_witness :
    whisper_init okLoader (some default_config)
        (whisper_shutdown (whisper_init okLoader (some default_config)
          EngineState.Uninitialized).2)
      = whisper_init okLoader (some default_config)
          EngineState.Uninitialized
    ∧ (whisper_init okLoader (some default_config)
        EngineState.Uninitialized).1 = WhisperResultCode.Success :=
  ⟨(whisper_init_shutdown_init_roundtrip okLoader default_config
      defaultModelPath { id := 1 } rfl (by decide) rfl).1,
    (whisper_init_shutdown_init_roundtrip okLoader default_config
      defaultModelPath { id := 1 } rfl (by decide) rfl).2.1⟩

/-- C9: `whisper_free_result` on a null result pointer is a safe no-op —
the pointer stays null and no string buffer is freed. -/
theorem whisper_free_result_null_noop :
    whisper_free_result none = (none, []) :=
  rfl

/-- C10: `whisper_version` is deterministic and total — in any two engine
states it returns the same version string, that string is non-null, and
the call leaves the engine state exactly as it was. -/
theorem whisper_version_deterministic (st other : EngineState) :
    (whisper_version st).1 = (whisper_version other).1
    ∧ (whisper_version st).1 = some whisper_version_string
    ∧ ((whisper_version st).1).isSome = true
    ∧ (whisper_version st).2 = st :=
  ⟨rfl, rfl, rfl, rfl⟩
